import Mathlib

/-!
Verification development for the call-lifecycle orchestration service
(`src/index.js`): phone-number normalization, call initiation, the
`/call-status` webhook with its CRM tagging side effects, and the SMS
sending paths.  JavaScript nullable strings are modelled as `Option String`
(`none` = `null`/`undefined`); external I/O is modelled by explicit
oracle parameters and an `Effect` trace.
-/

/-- Whitespace test used by `jsTrim`, modelling the whitespace characters
`String.prototype.trim` removes (the ASCII ones; the exotic Unicode space
characters are non-digits as well, so their omission does not change any
of the embedded functions, which only ever strip non-digits afterwards). -/
def jsIsWhitespace (c : Char) : Bool :=
  c == ' ' || c == '\t' || c == '\n' || c == '\r' || c == '\x0b' || c == '\x0c'

/-- Trim of `String.prototype.trim`: drop whitespace from both ends. -/
def jsTrimList (l : List Char) : List Char :=
  ((l.dropWhile jsIsWhitespace).reverse.dropWhile jsIsWhitespace).reverse

/-- `s.trim()` from the source. -/
def jsTrim (s : String) : String :=
  String.mk (jsTrimList s.data)

/-- `s.replace(/\D/g, '')` from the source: keep only ASCII digits. -/
def stripNonDigits (s : String) : String :=
  String.mk (s.data.filter Char.isDigit)

/-- `s.startsWith(p)` from the source. -/
def jsStartsWith (s p : String) : Bool :=
  p.data.isPrefixOf s.data

/-- JavaScript `a || b` on nullable strings: `a` unless it is absent or empty. -/
def jsOr (a b : Option String) : Option String :=
  match a with
  | none => b
  | some s => if s = "" then b else some s

/-- JavaScript truthiness of a nullable string. -/
def truthy : Option String → Bool
  | none => false
  | some s => !(s == "")

/-- `formatPhoneNumber` from `src/index.js` (lines 73-103).  `none` models
the `if (!phoneNumber) return null` guard taking the `null`/`undefined`
or empty-string input. -/
def formatPhoneNumber (phoneNumber : Option String) : Option String :=
  match phoneNumber with
  | none => none
  | some s =>
    if s = "" then none
    else
      let digits := stripNonDigits (jsTrim s)
      if jsStartsWith digits "63" then some ("+" ++ digits)
      else if digits.length = 10 then some ("+1" ++ digits)
      else if 11 ≤ digits.length then
        if jsStartsWith digits "1" then some ("+" ++ digits)
        else if jsStartsWith digits "63" then some ("+" ++ digits)
        else none
      else none

/-- `formatPhoneNumberForTagging` from `src/index.js` (lines 106-111). -/
def formatPhoneNumberForTagging (phoneNumber : Option String) : Option String :=
  match phoneNumber with
  | none => none
  | some s =>
    if s = "" then none
    else some (stripNonDigits (jsTrim s))

example : formatPhoneNumber (some "(555) 123-4567") = some "+15551234567" := by decide
example : formatPhoneNumber (some "6312345678") = some "+6312345678" := by decide
example : formatPhoneNumber (some "09171234567") = none := by decide
example : formatPhoneNumberForTagging (some "abc") = some "" := by decide
example : formatPhoneNumberForTagging (some "") = none := by decide

/-- Upper-case hexadecimal digit, for percent-encoding. -/
def hexDigitChar (n : Nat) : Char :=
  if n < 10 then Char.ofNat (48 + n) else Char.ofNat (55 + n)

/-- UTF-8 bytes of a character, as natural numbers. -/
def utf8Bytes (c : Char) : List Nat :=
  let n := c.toNat
  if n < 128 then [n]
  else if n < 2048 then [192 + n / 64, 128 + n % 64]
  else if n < 65536 then [224 + n / 4096, 128 + (n / 64) % 64, 128 + n % 64]
  else [240 + n / 262144, 128 + (n / 4096) % 64, 128 + (n / 64) % 64, 128 + n % 64]

/-- Percent-encoding of one byte, e.g. `%2B`. -/
def percentEncodeByte (n : Nat) : String :=
  String.mk [Char.ofNat 37, hexDigitChar (n / 16), hexDigitChar (n % 16)]

/-- Characters `encodeURIComponent` leaves unescaped:
letters, digits, and `- _ . ! ~ * ' ( )` (given here by code point). -/
def uriUnreserved (c : Char) : Bool :=
  c.isAlpha || c.isDigit || [45, 95, 46, 33, 126, 42, 39, 40, 41].contains c.toNat

/-- JavaScript `encodeURIComponent`. -/
def encodeURIComponent (s : String) : String :=
  String.join (s.data.map (fun c =>
    if uriUnreserved c then String.singleton c
    else String.join ((utf8Bytes c).map percentEncodeByte)))

example : encodeURIComponent "Jane" = "Jane" := by decide
example : encodeURIComponent "+15551234567" = "%2B15551234567" := by decide
example : encodeURIComponent "(555) 123-4567" = "(555)%20123-4567" := by decide
example : encodeURIComponent "events → ve0525flash-call-busy"
    = "events%20%E2%86%92%20ve0525flash-call-busy" := by decide

/-- Observable outbound I/O actions of the service, in program order. -/
inductive Effect where
  | ultravoxCreateCall
  | twilioDial (toNumber fromNumber statusCallback twiml : String)
  | twilioSms (toNumber fromNumber body : String) (timeoutMs maxPriceHundredths : Nat)
  | tagWebhookGet (url : String)
  | crmSearchContact (query : String)
  | crmCreateContact (phone locationId : String)
  | crmAddTag (contactId tag : String)
  deriving DecidableEq, Repr

/-- Does the effect hit the CRM REST API (`rest.gohighlevel.com`) directly? -/
def Effect.isCrm : Effect → Bool
  | Effect.crmSearchContact _ => true
  | Effect.crmCreateContact _ _ => true
  | Effect.crmAddTag _ _ => true
  | _ => false

/-- Is the effect a telephony dial request? -/
def Effect.isDial : Effect → Bool
  | Effect.twilioDial _ _ _ _ => true
  | _ => false

/-- An HTTP response: status code plus the JSON body's string fields. -/
structure HttpResponse where
  status : Nat
  fields : List (String × String)
  deriving DecidableEq, Repr

/-- CRM oracle: outcome of the GHL search / create requests. -/
structure CrmEnv where
  searchOk : Bool
  searchStatusText : String
  searchContacts : List String
  createOk : Bool
  createStatusText : String
  createdContactId : String

/-- `findOrCreateContact` from `src/index.js` (lines 229-272): search the
CRM by phone number, fall back to creating the contact under the fixed
location id.  Defined but never called by any route of the program. -/
def findOrCreateContact (cenv : CrmEnv) (locationId phoneNumber : String) :
    Except String String × List Effect :=
  if cenv.searchOk = false then
    (Except.error ("Failed to search contact: " ++ cenv.searchStatusText),
     [Effect.crmSearchContact phoneNumber])
  else
    match cenv.searchContacts with
    | c :: _ => (Except.ok c, [Effect.crmSearchContact phoneNumber])
    | [] =>
      if cenv.createOk = false then
        (Except.error ("Failed to create contact: " ++ cenv.createStatusText),
         [Effect.crmSearchContact phoneNumber,
          Effect.crmCreateContact phoneNumber locationId])
      else
        (Except.ok cenv.createdContactId,
         [Effect.crmSearchContact phoneNumber,
          Effect.crmCreateContact phoneNumber locationId])

/-- `addTagToContact` from `src/index.js` (lines 275-297).  Defined but
never called by any route of the program. -/
def addTagToContact (tagOk : Bool) (statusText contactId tag : String) :
    Except String Unit × List Effect :=
  if tagOk then (Except.ok (), [Effect.crmAddTag contactId tag])
  else (Except.error ("Failed to add tag: " ++ statusText), [Effect.crmAddTag contactId tag])

/-- Outcome of the Ultravox session-creation POST. -/
structure UltravoxResponse where
  ok : Bool
  status : Nat
  statusText : String
  bodyText : String
  joinUrl : String

/-- Process environment and external-service oracles used by call initiation. -/
structure Env where
  serverBaseUrl : String
  twilioPhoneNumber : String
  ultravox : UltravoxResponse
  dialResult : Except String String

/-- `createUltravoxCall` from `src/index.js` (lines 299-552).  The system
prompt and tool list only parameterize the request body (configuration
data); the control flow modelled here is the fetch to the Ultravox API,
returning the join URL on success and throwing the wrapped status text
and body on a non-ok response. -/
def createUltravoxCall (env : Env) (_clientName _phoneNumber _userType : String) :
    Except String String × List Effect :=
  if env.ultravox.ok then
    (Except.ok env.ultravox.joinUrl, [Effect.ultravoxCreateCall])
  else
    (Except.error ("Ultravox API error: " ++ toString env.ultravox.status ++ " "
        ++ env.ultravox.statusText ++ " - " ++ env.ultravox.bodyText),
     [Effect.ultravoxCreateCall])

/-- The status-callback URL built in `initiateCall` (line 564). -/
def statusCallbackUrl (env : Env) (clientName phoneNumber : String) : String :=
  env.serverBaseUrl ++ "/call-status?clientName=" ++ encodeURIComponent clientName
    ++ "&phoneNumber=" ++ encodeURIComponent phoneNumber

/-- `initiateCall` from `src/index.js` (lines 554-582): create the
Ultravox session, then dial through Twilio with the status callback
registered; errors from either stage propagate. -/
def initiateCall (env : Env) (clientName phoneNumber userType : String) :
    Except String String × List Effect :=
  match createUltravoxCall env clientName phoneNumber userType with
  | (Except.error e, effs) => (Except.error e, effs)
  | (Except.ok joinUrl, effs) =>
    let cb := statusCallbackUrl env clientName phoneNumber
    let twiml := "<Response><Connect><Stream url=\"" ++ joinUrl ++ "\"/></Connect></Response>"
    let effs := effs ++ [Effect.twilioDial phoneNumber env.twilioPhoneNumber cb twiml]
    match env.dialResult with
    | Except.ok sid => (Except.ok sid, effs)
    | Except.error e => (Except.error e, effs)

/-- Query-string parameters of a `/call-status` request. -/
structure StatusCallbackQuery where
  clientName : Option String
  phoneNumber : Option String
  deriving DecidableEq, Repr

/-- Body fields of a `/call-status` request (Twilio status callback):
`CallStatus`, `CallSid`, `To`. -/
structure StatusCallbackBody where
  callStatus : Option String
  callSid : Option String
  toNumber : Option String
  deriving DecidableEq, Repr

/-- Tag string used on the `busy` branch (line 612). -/
def busyTag : String := "events → ve0525flash-call-busy"

/-- Tag string used on the `no-answer` branch (line 631). -/
def noAnswerTag : String := "events → ve0525flash-call-no-answer"

/-- The logical tagging invocation the `/call-status` handler performs:
client name from the query string, contact key from
`formatPhoneNumberForTagging(phoneNumber || to)`, plus the tag string. -/
structure TagInvocation where
  clientName : Option String
  contactKey : Option String
  tag : String
  deriving DecidableEq, Repr

/-- The tagging invocation built on the busy / no-answer branches
(lines 612-614 and 631-633). -/
def statusTagInvocation (tag : String) (q : StatusCallbackQuery) (b : StatusCallbackBody) :
    TagInvocation :=
  ⟨q.clientName, formatPhoneNumberForTagging (jsOr q.phoneNumber b.toNumber), tag⟩

/-- The GET URL of the external tagging webhook, exactly as the template
literal on lines 614/633 renders it: an absent client name interpolates
as the text `undefined`, a null formatted phone as the text `null`. -/
def tagWebhookUrl (inv : TagInvocation) : String :=
  "https://tag-ghl-danella.onrender.com/api/contacts?clientName="
    ++ encodeURIComponent (inv.clientName.getD "undefined")
    ++ "&phoneNumber=" ++ inv.contactKey.getD "null"
    ++ "&tag=" ++ encodeURIComponent inv.tag

/-- The `POST /call-status` handler (lines 585-657).  `fetchOk` is the
outcome of the tagging GET; a failed fetch is caught and logged, so it
influences neither the trace nor the acknowledgment, and the handler
ends with `res.sendStatus(200)` on every branch of the switch. -/
def callStatusHandler (q : StatusCallbackQuery) (b : StatusCallbackBody) (_fetchOk : Bool) :
    HttpResponse × List Effect :=
  match b.callStatus with
  | some "busy" =>
      (⟨200, []⟩, [Effect.tagWebhookGet (tagWebhookUrl (statusTagInvocation busyTag q b))])
  | some "no-answer" =>
      (⟨200, []⟩, [Effect.tagWebhookGet (tagWebhookUrl (statusTagInvocation noAnswerTag q b))])
  | _ => (⟨200, []⟩, [])

/-- Outcome of the Twilio `messages.create` request. -/
inductive SmsProviderResult where
  | ok (sid : String)
  | err (msg : String)
  deriving DecidableEq, Repr

/-- `sendSMS` from `src/index.js` (lines 114-174): reject an
unformattable number before any dispatch, otherwise send exactly one
message from the configured number with a 30000 ms client timeout and a
0.15 USD (15 hundredths) maximum price; any error is rethrown wrapped
in `SMS send failed: `. -/
def sendSMS (env : Env) (phoneNumber : Option String) (message : String)
    (provider : SmsProviderResult) : Except String String × List Effect :=
  match formatPhoneNumber phoneNumber with
  | none => (Except.error "SMS send failed: Invalid phone number format", [])
  | some formattedNumber =>
    match provider with
    | SmsProviderResult.ok sid =>
        (Except.ok sid,
         [Effect.twilioSms formattedNumber env.twilioPhoneNumber message 30000 15])
    | SmsProviderResult.err m =>
        (Except.error ("SMS send failed: " ++ m),
         [Effect.twilioSms formattedNumber env.twilioPhoneNumber message 30000 15])

/-- Parameters of a `POST /api/sms-webhook` request. -/
structure SmsWebhookRequest where
  bPhoneNumber : Option String
  bRecipient : Option String
  bMessage : Option String
  qRecipient : Option String
  qPhoneNumber : Option String
  qMessage : Option String
  deriving DecidableEq, Repr

/-- The `POST /api/sms-webhook` handler (lines 177-226). -/
def smsWebhookHandler (env : Env) (req : SmsWebhookRequest) (provider : SmsProviderResult) :
    HttpResponse × List Effect :=
  let phoneNumber := jsOr (jsOr (jsOr req.bPhoneNumber req.bRecipient) req.qRecipient)
      req.qPhoneNumber
  let message := jsOr req.bMessage req.qMessage
  if !(truthy phoneNumber) || !(truthy message) then
    (⟨400, [("success", "false"), ("error", "Missing phoneNumber/recipient or message")]⟩, [])
  else
    match sendSMS env phoneNumber (message.getD "") provider with
    | (Except.ok sid, effs) =>
        (⟨200, [("success", "true"), ("messageSid", sid), ("message", "SMS sent successfully")]⟩,
         effs)
    | (Except.error e, effs) =>
        (⟨500, [("success", "false"), ("error", "SMS send failed: " ++ e)]⟩, effs)

/-- The `POST /send-sms` handler (lines 660-689). -/
def sendSmsHandler (env : Env) (bPhoneNumber bMessage : Option String)
    (provider : SmsProviderResult) : HttpResponse × List Effect :=
  if !(truthy bPhoneNumber) || !(truthy bMessage) then
    (⟨400, [("error", "Missing required parameters: phoneNumber and message")]⟩, [])
  else
    match sendSMS env bPhoneNumber (bMessage.getD "") provider with
    | (Except.ok sid, effs) =>
        (⟨200, [("success", "true"), ("message", "SMS sent successfully"), ("messageSid", sid)]⟩,
         effs)
    | (Except.error e, effs) =>
        (⟨500, [("error", "Failed to send SMS"), ("message", e)]⟩, effs)

/-- Parameters of a `GET|POST /initiate-call` request: query and body
copies of `clientName`, `phoneNumber`, `userType`. -/
structure InitiateCallRequest where
  qClientName : Option String
  qPhoneNumber : Option String
  qUserType : Option String
  bClientName : Option String
  bPhoneNumber : Option String
  bUserType : Option String
  deriving DecidableEq, Repr

/-- `handleCall` from `src/index.js` (lines 701-734), the
`/initiate-call` handler: resolve parameters (query over body), reject
missing or unformattable numbers with 400, then run `initiateCall` on
the formatted number and report its outcome. -/
def handleCall (env : Env) (req : InitiateCallRequest) : HttpResponse × List Effect :=
  let clientName := jsOr req.qClientName req.bClientName
  let phoneNumber := jsOr req.qPhoneNumber req.bPhoneNumber
  let userType := jsOr (jsOr req.qUserType req.bUserType) (some "non-VIP")
  if !(truthy clientName) || !(truthy phoneNumber) then
    (⟨400, [("error", "Missing required parameters: clientName and phoneNumber")]⟩, [])
  else
    match formatPhoneNumber phoneNumber with
    | none =>
        (⟨400, [("error",
          "Invalid phone number format. Please provide a valid phone number (e.g., 1234567890 or +1234567890)")]⟩,
         [])
    | some formattedNumber =>
      match initiateCall env (clientName.getD "") formattedNumber (userType.getD "") with
      | (Except.ok sid, effs) =>
          (⟨200, [("success", "true"), ("message", "Call initiated successfully"),
            ("callSid", sid)]⟩, effs)
      | (Except.error e, effs) =>
          (⟨500, [("error", "Failed to initiate call"), ("message", e)]⟩, effs)

/-- The `GET /health` handler (lines 692-694). -/
def healthHandler : HttpResponse × List Effect :=
  (⟨200, [("status", "ok")]⟩, [])

/-- Dialable form as §4.1 of the spec words it: strip non-digits, then
try the branches in the stated order.  Written from the spec's text, to
be compared with `formatPhoneNumber` from the source. -/
def claimDialable (raw : String) : Option String :=
  let digits := stripNonDigits raw
  if jsStartsWith digits "63" then some ("+" ++ digits)
  else if digits.length = 10 then some ("+1" ++ digits)
  else if 11 ≤ digits.length ∧ jsStartsWith digits "1" = true then some ("+" ++ digits)
  else if 11 ≤ digits.length ∧ jsStartsWith digits "63" = true then some ("+" ++ digits)
  else none

/-- The status-callback URL as the spec describes it: embedding the
lead's display name and raw (pre-normalization) phone string.  Written
from the spec's text, to be compared with the URL the source builds. -/
def specStatusCallbackUrl (env : Env) (displayName rawPhone : String) : String :=
  env.serverBaseUrl ++ "/call-status?clientName=" ++ encodeURIComponent displayName
    ++ "&phoneNumber=" ++ encodeURIComponent rawPhone

/-- `sub` occurs as a contiguous substring of `t`. -/
def strContains (t sub : String) : Prop :=
  ∃ a b : List Char, t.data = a ++ sub.data ++ b

/-- Concatenating strings concatenates their character lists. -/
theorem string_data_append (a b : String) : (a ++ b).data = a.data ++ b.data := by
  cases a; cases b; rfl

/-- A whitespace character (in the `jsTrim` sense) is never a digit. -/
theorem ws_not_digit : ∀ c : Char, jsIsWhitespace c = true → Char.isDigit c = false := by
  intro c h
  simp only [jsIsWhitespace, Bool.or_eq_true, beq_iff_eq] at h
  rcases h with ((((h | h) | h) | h) | h) | h <;> subst h <;> decide

/-- A digit is never whitespace. -/
theorem digit_not_ws (c : Char) (h : Char.isDigit c = true) : jsIsWhitespace c = false := by
  cases hw : jsIsWhitespace c
  · rfl
  · rw [ws_not_digit c hw] at h
    exact absurd h (by decide)

/-- `dropWhile` is the identity when no element satisfies the predicate. -/
theorem dropWhile_eq_self_of_none (p : Char → Bool) (l : List Char)
    (h : ∀ c ∈ l, p c = false) : l.dropWhile p = l := by
  cases l with
  | nil => rfl
  | cons a t => simp [List.dropWhile_cons, h a (by simp)]

/-- Dropping a prefix of `q`-elements does not change a `p`-filter when
`q` and `p` are disjoint. -/
theorem filter_dropWhile (p q : Char → Bool) (hpq : ∀ c, q c = true → p c = false)
    (l : List Char) : (l.dropWhile q).filter p = l.filter p := by
  induction l with
  | nil => rfl
  | cons a t ih =>
    by_cases hq : q a = true
    · simp [List.dropWhile_cons, hq, ih, List.filter_cons, hpq a hq]
    · simp [List.dropWhile_cons, hq]

/-- Trimming whitespace does not change the digit content of a list. -/
theorem filter_digit_jsTrimList (l : List Char) :
    (jsTrimList l).filter Char.isDigit = l.filter Char.isDigit := by
  unfold jsTrimList
  rw [List.filter_reverse, filter_dropWhile Char.isDigit jsIsWhitespace ws_not_digit,
    List.filter_reverse, filter_dropWhile Char.isDigit jsIsWhitespace ws_not_digit,
    List.reverse_reverse]

/-- Trimming whitespace before stripping non-digits is redundant. -/
theorem strip_jsTrim (s : String) : stripNonDigits (jsTrim s) = stripNonDigits s := by
  unfold stripNonDigits jsTrim
  exact congrArg String.mk (filter_digit_jsTrimList s.data)

/-- The output of `stripNonDigits` consists of digits only. -/
theorem stripNonDigits_all_digits (s : String) :
    (stripNonDigits s).data.all Char.isDigit = true := by
  simp only [stripNonDigits, List.all_eq_true]
  intro a ha
  exact (List.mem_filter.mp ha).2

/-- `stripNonDigits` is the identity on digit-only strings. -/
theorem strip_of_digits (x : String) (h : x.data.all Char.isDigit = true) :
    stripNonDigits x = x := by
  unfold stripNonDigits
  rw [List.filter_eq_self.mpr (List.all_eq_true.mp h)]

/-- `jsTrim` is the identity on digit-only strings. -/
theorem jsTrim_of_digits (x : String) (h : x.data.all Char.isDigit = true) :
    jsTrim x = x := by
  have hws : ∀ c ∈ x.data, jsIsWhitespace c = false := fun c hc =>
    digit_not_ws c (List.all_eq_true.mp h c hc)
  unfold jsTrim jsTrimList
  rw [dropWhile_eq_self_of_none _ _ hws,
    dropWhile_eq_self_of_none _ _ (fun c hc => hws c (List.mem_reverse.mp hc)),
    List.reverse_reverse]

/-- On digit-only strings the trim-then-strip pipeline is the identity. -/
theorem stripTrim_of_digits (x : String) (h : x.data.all Char.isDigit = true) :
    stripNonDigits (jsTrim x) = x := by
  rw [jsTrim_of_digits x h, strip_of_digits x h]

/-- A formattable phone number is a truthy input. -/
theorem truthy_of_format {o : Option String} {f : String}
    (h : formatPhoneNumber o = some f) : truthy o = true := by
  cases o with
  | none => exact absurd h (by simp [formatPhoneNumber])
  | some s =>
    by_cases hs : s = ""
    · subst hs
      exact absurd h (by simp [formatPhoneNumber])
    · simp [truthy, hs]

/-- Claim C3 (counterexample): a 10-digit string starting with `63` is
routed through the Philippines branch, so its dialable form is `+` +
digits, not `+1` + digits as the claim states for every 10-digit string. -/
theorem ten_digit_63_counterexample :
    ("6312345678".data.all Char.isDigit = true) ∧
    "6312345678".length = 10 ∧
    formatPhoneNumber (some "6312345678") = some "+6312345678" ∧
    formatPhoneNumber (some "6312345678") ≠ some ("+1" ++ "6312345678") := by decide

/-- Claim C3 (amended): for every digit string of length 10 that does not
start with `63`, the dialable form is `+1` followed by the digits. -/
theorem ten_digit_normalize_plus_one (x : String) (hd : x.data.all Char.isDigit = true)
    (hl : x.length = 10) (h63 : jsStartsWith x "63" = false) :
    formatPhoneNumber (some x) = some ("+1" ++ x) := by
  have hne : x ≠ "" := by
    intro he
    rw [he] at hl
    exact absurd hl (by decide)
  simp only [formatPhoneNumber, if_neg hne, stripTrim_of_digits x hd, h63, hl]
  simp

/-- Claim C3 (witness): the amended statement evaluated at `5551234567`. -/
theorem ten_digit_normalize_plus_one_witness :
    formatPhoneNumber (some "5551234567") = some ("+1" ++ "5551234567") :=
  ten_digit_normalize_plus_one "5551234567" (by decide) (by decide) (by decide)

/-- Claim C5: the source's `formatPhoneNumber` computes exactly the
dialable form the spec's branch order describes, for every input string. -/
theorem normalize_matches_spec_branch_order (raw : String) :
    formatPhoneNumber (some raw) = claimDialable raw := by
  by_cases h : raw = ""
  · subst h
    decide
  · simp only [formatPhoneNumber, claimDialable, if_neg h, strip_jsTrim]
    split_ifs <;> simp_all

/-- Claim C4 (counterexample): on empty input the tagging form is `null`
(`none`), not the empty string the claim asserts. -/
theorem tagging_key_null_for_empty :
    formatPhoneNumberForTagging (some "") = none ∧
    formatPhoneNumberForTagging none = none ∧
    formatPhoneNumberForTagging (some "") ≠ some "" := by decide

/-- Claim C4 (amended): `formatPhoneNumberForTagging` is total; on every
non-empty input its value is the input with all non-digit characters
stripped, and on null or empty input it is `null` (to be read by the
caller as "no phone"). -/
theorem tagging_key_total_strips (s : String) (h : s ≠ "") :
    formatPhoneNumberForTagging (some s) = some (stripNonDigits s) ∧
    formatPhoneNumberForTagging none = none ∧
    formatPhoneNumberForTagging (some "") = none := by
  refine ⟨?_, rfl, rfl⟩
  simp [formatPhoneNumberForTagging, h, strip_jsTrim]

/-- Claim C4 (witness): the amended statement evaluated at `abc-123`. -/
theorem tagging_key_total_strips_witness :
    formatPhoneNumberForTagging (some "abc-123") = some (stripNonDigits "abc-123") ∧
    formatPhoneNumberForTagging none = none ∧
    formatPhoneNumberForTagging (some "") = none :=
  tagging_key_total_strips "abc-123" (by decide)

/-- Claim C9 (counterexample): on a non-empty input without digits the
tagging key is the empty string, but re-normalizing the empty string
yields `null`, so the `taggingKey` projection is not idempotent. -/
theorem tagging_key_idem_counterexample :
    formatPhoneNumberForTagging (some "abc") = some "" ∧
    formatPhoneNumberForTagging (formatPhoneNumberForTagging (some "abc")) = none ∧
    formatPhoneNumberForTagging (formatPhoneNumberForTagging (some "abc"))
      ≠ formatPhoneNumberForTagging (some "abc") := by decide

/-- Claim C9 (amended): the `taggingKey` projection is idempotent on null
and empty inputs and on every input containing at least one digit; only
non-empty digit-free inputs break it. -/
theorem tagging_key_idem_on_digits :
    (∀ x : Option String, (x = none ∨ x = some "") →
       formatPhoneNumberForTagging (formatPhoneNumberForTagging x)
         = formatPhoneNumberForTagging x) ∧
    (∀ s : String, s.data.any Char.isDigit = true →
       formatPhoneNumberForTagging (formatPhoneNumberForTagging (some s))
         = formatPhoneNumberForTagging (some s)) := by
  constructor
  · rintro x (rfl | rfl) <;> rfl
  · intro s hs
    obtain ⟨c, hc, hcd⟩ := List.any_eq_true.mp hs
    have hne : s ≠ "" := by
      intro he
      subst he
      simp at hc
    have h1 : formatPhoneNumberForTagging (some s) = some (stripNonDigits s) := by
      simp [formatPhoneNumberForTagging, hne, strip_jsTrim]
    have hdne : stripNonDigits s ≠ "" := by
      intro he
      have hmem : c ∈ (stripNonDigits s).data := by
        simp only [stripNonDigits]
        exact List.mem_filter.mpr ⟨hc, hcd⟩
      rw [he] at hmem
      simp at hmem
    rw [h1]
    simp [formatPhoneNumberForTagging, hdne, stripTrim_of_digits _ (stripNonDigits_all_digits s)]

/-- Claim C9 (witness): the amended idempotence evaluated at `a1`. -/
theorem tagging_key_idem_on_digits_witness :
    formatPhoneNumberForTagging (formatPhoneNumberForTagging (some "a1"))
      = formatPhoneNumberForTagging (some "a1") :=
  tagging_key_idem_on_digits.2 "a1" (by decide)

/-- Claim C1 (counterexample): for the spec's own scenario
(`CallStatus=busy`, `clientName=Jane`, `phoneNumber=5551234567`) the
handler fires exactly one tagging GET, whose tag string is
`events → ve0525flash-call-busy` — it contains `call-busy` but is not
equal to it, so "tag string call-busy" fails as an equality. -/
theorem call_status_busy_tag_counterexample :
    (callStatusHandler ⟨some "Jane", some "5551234567"⟩ ⟨some "busy", none, none⟩ true).2
      = [Effect.tagWebhookGet
          "https://tag-ghl-danella.onrender.com/api/contacts?clientName=Jane&phoneNumber=5551234567&tag=events%20%E2%86%92%20ve0525flash-call-busy"] ∧
    (statusTagInvocation busyTag ⟨some "Jane", some "5551234567"⟩
        ⟨some "busy", none, none⟩).contactKey = some "5551234567" ∧
    (statusTagInvocation busyTag ⟨some "Jane", some "5551234567"⟩
        ⟨some "busy", none, none⟩).tag ≠ "call-busy" := by decide

/-- Claim C1 (amended): on `CallStatus=busy` (respectively `no-answer`)
the handler performs exactly one tagging-webhook GET whose contact key is
the digits-only tagging form of the query-string `phoneNumber` with
JavaScript `||` fallback to the body's `To`, and whose tag string is
`events → ve0525flash-call-busy` (respectively
`events → ve0525flash-call-no-answer`), each containing `call-busy`
(respectively `call-no-answer`) as a substring. -/
theorem call_status_busy_noanswer_tagging (q : StatusCallbackQuery)
    (b : StatusCallbackBody) (fo : Bool) :
    (b.callStatus = some "busy" →
       (callStatusHandler q b fo).2
         = [Effect.tagWebhookGet (tagWebhookUrl (statusTagInvocation busyTag q b))] ∧
       (statusTagInvocation busyTag q b).contactKey
         = formatPhoneNumberForTagging (jsOr q.phoneNumber b.toNumber) ∧
       strContains (statusTagInvocation busyTag q b).tag "call-busy") ∧
    (b.callStatus = some "no-answer" →
       (callStatusHandler q b fo).2
         = [Effect.tagWebhookGet (tagWebhookUrl (statusTagInvocation noAnswerTag q b))] ∧
       (statusTagInvocation noAnswerTag q b).contactKey
         = formatPhoneNumberForTagging (jsOr q.phoneNumber b.toNumber) ∧
       strContains (statusTagInvocation noAnswerTag q b).tag "call-no-answer") := by
  constructor
  · intro h
    refine ⟨by simp [callStatusHandler, h], rfl, ?_⟩
    show strContains busyTag "call-busy"
    exact ⟨"events → ve0525flash-".data, [], by decide⟩
  · intro h
    refine ⟨by simp [callStatusHandler, h], rfl, ?_⟩
    show strContains noAnswerTag "call-no-answer"
    exact ⟨"events → ve0525flash-".data, [], by decide⟩

/-- Claim C1 (witness): the amended statement at the spec's scenario. -/
theorem call_status_busy_noanswer_tagging_witness :
    (callStatusHandler ⟨some "Jane", some "5551234567"⟩ ⟨some "busy", none, none⟩ false).2
      = [Effect.tagWebhookGet (tagWebhookUrl (statusTagInvocation busyTag
          ⟨some "Jane", some "5551234567"⟩ ⟨some "busy", none, none⟩))] ∧
    (statusTagInvocation busyTag ⟨some "Jane", some "5551234567"⟩
        ⟨some "busy", none, none⟩).contactKey
      = formatPhoneNumberForTagging (jsOr (some "5551234567") none) ∧
    strContains (statusTagInvocation busyTag ⟨some "Jane", some "5551234567"⟩
        ⟨some "busy", none, none⟩).tag "call-busy" :=
  (call_status_busy_noanswer_tagging ⟨some "Jane", some "5551234567"⟩
    ⟨some "busy", none, none⟩ false).1 rfl

/-- Claim C6: the `/call-status` handler acknowledges with HTTP 200 for
every `CallStatus` value and independently of the tagging GET's outcome
(the `fetchOk` oracle), since tagging failures are caught and logged. -/
theorem call_status_always_200 (q : StatusCallbackQuery) (b : StatusCallbackBody)
    (fetchOk : Bool) : (callStatusHandler q b fetchOk).1.status = 200 := by
  unfold callStatusHandler
  split <;> rfl

/-- Effects of `initiateCall` never touch the CRM REST API. -/
theorem initiateCall_effects_not_crm (env : Env) (c p u : String) :
    ((initiateCall env c p u).2.all (fun e => !(e.isCrm))) = true := by
  by_cases h : env.ultravox.ok = true
  · cases hd : env.dialResult <;>
      simp [initiateCall, createUltravoxCall, h, hd, Effect.isCrm]
  · simp only [Bool.not_eq_true] at h
    simp [initiateCall, createUltravoxCall, h, Effect.isCrm]

/-- Effects of `sendSMS` never touch the CRM REST API. -/
theorem sendSMS_effects_not_crm (env : Env) (pn : Option String) (msg : String)
    (pr : SmsProviderResult) :
    ((sendSMS env pn msg pr).2.all (fun e => !(e.isCrm))) = true := by
  unfold sendSMS
  split
  · rfl
  · split <;> rfl

/-- Claim C2 (counterexample): initiating a call for Jane at raw phone
`(555) 123-4567` registers a status-callback URL whose `phoneNumber`
query parameter is the URL-encoded normalized number `+15551234567`; the
URL the spec describes, embedding the raw string, is different. -/
theorem callback_url_raw_phone_counterexample :
    (handleCall ⟨"http://localhost:10000", "+15550000000",
        ⟨true, 201, "Created", "", "wss://uv/join"⟩, Except.ok "CA1"⟩
        ⟨some "Jane", some "(555) 123-4567", none, none, none, none⟩).2
      = [Effect.ultravoxCreateCall,
         Effect.twilioDial "+15551234567" "+15550000000"
           "http://localhost:10000/call-status?clientName=Jane&phoneNumber=%2B15551234567"
           "<Response><Connect><Stream url=\"wss://uv/join\"/></Connect></Response>"] ∧
    specStatusCallbackUrl ⟨"http://localhost:10000", "+15550000000",
        ⟨true, 201, "Created", "", "wss://uv/join"⟩, Except.ok "CA1"⟩
        "Jane" "(555) 123-4567"
      = "http://localhost:10000/call-status?clientName=Jane&phoneNumber=(555)%20123-4567" ∧
    ("http://localhost:10000/call-status?clientName=Jane&phoneNumber=%2B15551234567" : String)
      ≠ "http://localhost:10000/call-status?clientName=Jane&phoneNumber=(555)%20123-4567" := by
  decide

/-- Claim C2 (amended): for every `/initiate-call` request that reaches
the dial step, the registered status-callback URL embeds the resolved
client name and the normalized dialable form of the phone number (the
output of `formatPhoneNumber`, URL-encoded) as the `clientName` and
`phoneNumber` query parameters — not the raw pre-normalization string. -/
theorem handleCall_callback_embeds_dialable (env : Env) (req : InitiateCallRequest)
    (f : String)
    (hc : truthy (jsOr req.qClientName req.bClientName) = true)
    (hf : formatPhoneNumber (jsOr req.qPhoneNumber req.bPhoneNumber) = some f)
    (huv : env.ultravox.ok = true) :
    (handleCall env req).2
      = [Effect.ultravoxCreateCall,
         Effect.twilioDial f env.twilioPhoneNumber
           (statusCallbackUrl env ((jsOr req.qClientName req.bClientName).getD "") f)
           ("<Response><Connect><Stream url=\"" ++ env.ultravox.joinUrl
             ++ "\"/></Connect></Response>")] := by
  have hp := truthy_of_format hf
  cases hd : env.dialResult with
  | ok sid => simp [handleCall, initiateCall, createUltravoxCall, hc, hp, hf, huv, hd]
  | error e => simp [handleCall, initiateCall, createUltravoxCall, hc, hp, hf, huv, hd]

/-- Claim C2 (witness): the amended statement at Jane / `5551234567`. -/
theorem handleCall_callback_embeds_dialable_witness :
    (handleCall ⟨"http://localhost:10000", "+15550000000",
        ⟨true, 201, "Created", "", "wss://uv/join"⟩, Except.ok "CA1"⟩
        ⟨some "Jane", some "5551234567", none, none, none, none⟩).2
      = [Effect.ultravoxCreateCall,
         Effect.twilioDial "+15551234567" "+15550000000"
           (statusCallbackUrl ⟨"http://localhost:10000", "+15550000000",
              ⟨true, 201, "Created", "", "wss://uv/join"⟩, Except.ok "CA1"⟩
              ((jsOr (some "Jane") none).getD "") "+15551234567")
           ("<Response><Connect><Stream url=\"wss://uv/join\"/></Connect></Response>")] :=
  handleCall_callback_embeds_dialable _ _ "+15551234567" (by decide) (by decide) rfl

/-- Claim C7: when the Ultravox session-creation response is not ok, the
`/initiate-call` handler responds 500, its `message` field carries the
wrapped upstream error (status, status text and body text embedded), and
the only effect performed is the session-creation request — no dial. -/
theorem initiate_call_session_failure (env : Env) (req : InitiateCallRequest)
    (f : String)
    (hc : truthy (jsOr req.qClientName req.bClientName) = true)
    (hf : formatPhoneNumber (jsOr req.qPhoneNumber req.bPhoneNumber) = some f)
    (huv : env.ultravox.ok = false) :
    (handleCall env req).1.status = 500 ∧
    ("message", "Ultravox API error: " ++ toString env.ultravox.status ++ " "
        ++ env.ultravox.statusText ++ " - " ++ env.ultravox.bodyText)
      ∈ (handleCall env req).1.fields ∧
    strContains ("Ultravox API error: " ++ toString env.ultravox.status ++ " "
        ++ env.ultravox.statusText ++ " - " ++ env.ultravox.bodyText)
      env.ultravox.bodyText ∧
    (handleCall env req).2 = [Effect.ultravoxCreateCall] := by
  have hp := truthy_of_format hf
  have hmain : handleCall env req
      = (⟨500, [("error", "Failed to initiate call"),
          ("message", "Ultravox API error: " ++ toString env.ultravox.status ++ " "
            ++ env.ultravox.statusText ++ " - " ++ env.ultravox.bodyText)]⟩,
         [Effect.ultravoxCreateCall]) := by
    simp [handleCall, initiateCall, createUltravoxCall, hc, hp, hf, huv]
  rw [hmain]
  refine ⟨rfl, by simp, ?_, rfl⟩
  refine ⟨("Ultravox API error: " ++ toString env.ultravox.status ++ " "
      ++ env.ultravox.statusText ++ " - ").data, [], ?_⟩
  rw [string_data_append, List.append_nil]

/-- Claim C7 (witness): the statement at a concrete failing session. -/
theorem initiate_call_session_failure_witness :
    (handleCall ⟨"http://localhost:10000", "+15550000000",
        ⟨false, 500, "Internal Server Error", "boom", ""⟩, Except.ok "CA1"⟩
        ⟨some "Jane", some "5551234567", none, none, none, none⟩).1.status = 500 ∧
    (handleCall ⟨"http://localhost:10000", "+15550000000",
        ⟨false, 500, "Internal Server Error", "boom", ""⟩, Except.ok "CA1"⟩
        ⟨some "Jane", some "5551234567", none, none, none, none⟩).2
      = [Effect.ultravoxCreateCall] :=
  ⟨(initiate_call_session_failure _ _ "+15551234567" (by decide) (by decide) rfl).1,
   (initiate_call_session_failure _ _ "+15551234567" (by decide) (by decide) rfl).2.2.2⟩

/-- Claim C8: `sendSMS` rejects an unformattable number with the
invalid-format error before dispatching anything; on a formattable
number it dispatches exactly one message from the configured sender
number with the 30000 ms timeout and the price cap, returning the
provider's sid on success and the wrapped failure otherwise. -/
theorem sendSMS_contract (env : Env) (pn : Option String) (msg : String)
    (pr : SmsProviderResult) :
    (formatPhoneNumber pn = none →
       sendSMS env pn msg pr
         = (Except.error "SMS send failed: Invalid phone number format", [])) ∧
    (∀ f, formatPhoneNumber pn = some f →
       (sendSMS env pn msg pr).2
           = [Effect.twilioSms f env.twilioPhoneNumber msg 30000 15] ∧
       (∀ sid, pr = SmsProviderResult.ok sid → (sendSMS env pn msg pr).1 = Except.ok sid) ∧
       (∀ m, pr = SmsProviderResult.err m →
          (sendSMS env pn msg pr).1 = Except.error ("SMS send failed: " ++ m))) := by
  constructor
  · intro h
    simp [sendSMS, h]
  · intro f hf
    refine ⟨?_, ?_, ?_⟩
    · cases pr <;> simp [sendSMS, hf]
    · rintro sid rfl
      simp [sendSMS, hf]
    · rintro m rfl
      simp [sendSMS, hf]

/-- Claim C8 (witness): the contract at an invalid (`123`) and a valid
(`5551234567`) recipient. -/
theorem sendSMS_contract_witness :
    sendSMS ⟨"http://localhost:10000", "+15550000000", ⟨true, 200, "", "", ""⟩,
        Except.ok "CA1"⟩ (some "123") "hi" (SmsProviderResult.ok "SM1")
      = (Except.error "SMS send failed: Invalid phone number format", []) ∧
    (sendSMS ⟨"http://localhost:10000", "+15550000000", ⟨true, 200, "", "", ""⟩,
        Except.ok "CA1"⟩ (some "5551234567") "hi" (SmsProviderResult.ok "SM1")).2
      = [Effect.twilioSms "+15551234567" "+15550000000" "hi" 30000 15] :=
  ⟨(sendSMS_contract _ _ _ _).1 (by decide),
   ((sendSMS_contract _ _ _ _).2 "+15551234567" (by decide)).1⟩

/-- The effect trace of `/initiate-call` is empty or that of `initiateCall`. -/
theorem handleCall_snd (env : Env) (req : InitiateCallRequest) :
    (handleCall env req).2 = [] ∨
    ∃ p, formatPhoneNumber (jsOr req.qPhoneNumber req.bPhoneNumber) = some p ∧
      (handleCall env req).2
        = (initiateCall env ((jsOr req.qClientName req.bClientName).getD "") p
            ((jsOr (jsOr req.qUserType req.bUserType) (some "non-VIP")).getD "")).2 := by
  simp only [handleCall]
  split
  · exact Or.inl rfl
  · split
    · exact Or.inl rfl
    · rename_i p heq
      right
      refine ⟨p, heq, ?_⟩
      split <;> rename_i heq2 <;> rw [heq2]

/-- The effect trace of `/api/sms-webhook` is empty or that of `sendSMS`. -/
theorem smsWebhookHandler_snd (env : Env) (req : SmsWebhookRequest)
    (pr : SmsProviderResult) :
    (smsWebhookHandler env req pr).2 = [] ∨
    (smsWebhookHandler env req pr).2
      = (sendSMS env
          (jsOr (jsOr (jsOr req.bPhoneNumber req.bRecipient) req.qRecipient) req.qPhoneNumber)
          ((jsOr req.bMessage req.qMessage).getD "") pr).2 := by
  simp only [smsWebhookHandler]
  split
  · exact Or.inl rfl
  · right
    split <;> rename_i heq <;> rw [heq]

/-- The effect trace of `/send-sms` is empty or that of `sendSMS`. -/
theorem sendSmsHandler_snd (env : Env) (pn msg : Option String)
    (pr : SmsProviderResult) :
    (sendSmsHandler env pn msg pr).2 = [] ∨
    (sendSmsHandler env pn msg pr).2 = (sendSMS env pn (msg.getD "") pr).2 := by
  unfold sendSmsHandler
  split
  · exact Or.inl rfl
  · right
    split <;> rename_i heq <;> rw [heq]

/-- Claim C10: no handler of the program ever emits a direct CRM REST
effect — `findOrCreateContact` / `addTagToContact` are unreachable from
every route — and the tagging the `/call-status` handler actually
performs is a GET to the external tagging webhook; the two CRM functions
themselves, by contrast, emit only CRM REST effects. -/
theorem no_direct_crm_calls :
    (∀ env req, ((handleCall env req).2.all (fun e => !(e.isCrm))) = true) ∧
    (∀ q b fo, ((callStatusHandler q b fo).2.all (fun e => !(e.isCrm))) = true) ∧
    (∀ env req pr, ((smsWebhookHandler env req pr).2.all (fun e => !(e.isCrm))) = true) ∧
    (∀ env pn msg pr, ((sendSmsHandler env pn msg pr).2.all (fun e => !(e.isCrm))) = true) ∧
    (∀ q b fo, b.callStatus = some "busy" →
       (callStatusHandler q b fo).2
         = [Effect.tagWebhookGet (tagWebhookUrl (statusTagInvocation busyTag q b))]) ∧
    (∀ cenv loc p, (findOrCreateContact cenv loc p).2 ≠ [] ∧
       ((findOrCreateContact cenv loc p).2.all Effect.isCrm) = true) := by
  refine ⟨?_, ?_, ?_, ?_, ?_, ?_⟩
  · intro env req
    rcases handleCall_snd env req with h | ⟨p, _, h⟩ <;> rw [h]
    · rfl
    · exact initiateCall_effects_not_crm env _ p _
  · intro q b fo
    unfold callStatusHandler
    split <;> rfl
  · intro env req pr
    rcases smsWebhookHandler_snd env req pr with h | h <;> rw [h]
    · rfl
    · exact sendSMS_effects_not_crm env _ _ pr
  · intro env pn msg pr
    rcases sendSmsHandler_snd env pn msg pr with h | h <;> rw [h]
    · rfl
    · exact sendSMS_effects_not_crm env pn (msg.getD "") pr
  · intro q b fo h
    simp [callStatusHandler, h]
  · intro cenv loc p
    unfold findOrCreateContact
    split
    · exact ⟨by simp, by simp [Effect.isCrm]⟩
    · split
      · exact ⟨by simp, by simp [Effect.isCrm]⟩
      · split
        · exact ⟨by simp, by simp [Effect.isCrm]⟩
        · exact ⟨by simp, by simp [Effect.isCrm]⟩

/-- Claim C10 (witness): the busy branch of `/call-status` produces
exactly one external-tagging-webhook GET. -/
theorem no_direct_crm_calls_witness :
    (callStatusHandler ⟨none, some "5551234567"⟩ ⟨some "busy", none, none⟩ true).2
      = [Effect.tagWebhookGet (tagWebhookUrl (statusTagInvocation busyTag
          ⟨none, some "5551234567"⟩ ⟨some "busy", none, none⟩))] :=
  no_direct_crm_calls.2.2.2.2.1 ⟨none, some "5551234567"⟩ ⟨some "busy", none, none⟩ true rfl
